import Mathlib

/-!
Verification of the radioactive-decay simulator (`src/app.py`).

The computational core of the program (lines 122-138 of `app.py`) is a
closed-form exponential evaluation over a linearly spaced time grid:

  t12    = info["t12_s"]
  lam    = math.log(2) / t12
  tau    = 1.0 / lam
  Tmax_s = k_semividas * t12
  factor = unidades[unidad_sel]
  Tmax_u = Tmax_s / factor
  num_pts = 600
  t_u = np.linspace(0, Tmax_u, num_pts)
  t_s = t_u * factor
  N_t = N0 * np.exp(-lam * t_s)
  A_t = lam * N_t

We embed these real-valued computations shallowly over `ℝ`.  `np.linspace`
with `num` points from `0` to `Tmax_u` produces, in exact arithmetic, the
points `i * (Tmax_u / (num - 1))` for `i = 0, …, num - 1`.
-/

namespace DecayApp

/-- Parameter record for one computation: `t12` is the isotope half-life in
seconds (`info["t12_s"]`), `N0` the initial population, `factor` the
seconds-per-unit conversion (`unidades[unidad_sel]`), and `k_semividas`
the time-range slider value. -/
structure Params where
  t12 : ℝ
  N0 : ℝ
  factor : ℝ
  k_semividas : ℝ

/-- Decay constant, from `lam = math.log(2) / t12` (app.py line 123). -/
noncomputable def lam (t12 : ℝ) : ℝ := Real.log 2 / t12

/-- Mean lifetime, from `tau = 1.0 / lam` (app.py line 124). -/
noncomputable def tau (t12 : ℝ) : ℝ := 1.0 / lam t12

/-- Maximal time in seconds, from `Tmax_s = k_semividas * t12` (line 127). -/
noncomputable def Tmax_s (p : Params) : ℝ := p.k_semividas * p.t12

/-- Maximal time in the selected unit, from `Tmax_u = Tmax_s / factor`
(line 129). -/
noncomputable def Tmax_u (p : Params) : ℝ := Tmax_s p / p.factor

/-- Number of grid points, from `num_pts = 600` (line 132). -/
def num_pts : ℕ := 600

/-- Time grid in the selected unit: the `i`-th point of
`np.linspace(0, Tmax_u, num_pts)` (line 134). -/
noncomputable def t_u (p : Params) (i : ℕ) : ℝ :=
  (i : ℝ) * (Tmax_u p / ((num_pts : ℝ) - 1))

/-- Time grid in seconds, from `t_s = t_u * factor` (line 135). -/
noncomputable def t_s (p : Params) (i : ℕ) : ℝ := t_u p i * p.factor

/-- Remaining population, from `N_t = N0 * np.exp(-lam * t_s)` (line 137). -/
noncomputable def N_t (p : Params) (i : ℕ) : ℝ :=
  p.N0 * Real.exp (-(lam p.t12) * t_s p i)

/-- Activity, from `A_t = lam * N_t` (line 138). -/
noncomputable def A_t (p : Params) (i : ℕ) : ℝ := lam p.t12 * N_t p i

/-- One row of the output table `df` (lines 158-162): time in the selected
unit, population, and activity. -/
structure DecaySample where
  t_unit : ℝ
  N : ℝ
  A : ℝ

/-- The full output sequence: the 600 rows of the data frame, in grid
order. -/
noncomputable def samples (p : Params) : List DecaySample :=
  (List.range num_pts).map (fun i => ⟨t_u p i, N_t p i, A_t p i⟩)

/-- Seconds per year, from `AÑO = 365.25*24*3600` (line 35). -/
noncomputable def ANO_s : ℝ := 365.25 * 24 * 3600

/-- Seconds per day, from `DIA = 24*3600` (line 36). -/
noncomputable def DIA : ℝ := 24 * 3600

/-- Seconds per hour, from `HORA = 3600` (line 37). -/
noncomputable def HORA : ℝ := 3600

/-- Seconds per minute, from `MIN = 60` (line 38). -/
noncomputable def MINUTO : ℝ := 60

/-- The eight half-lives (in seconds) of the static isotope catalog
`isotopos` (lines 40-89), in source order: C-14, U-238, I-131, Co-60,
Tc-99m, Cs-137, Rn-222, Pu-239. -/
noncomputable def isotopos_t12 : List ℝ :=
  [5730 * ANO_s, 4.468e9 * ANO_s, 8.02 * DIA, 5.27 * ANO_s,
   6 * HORA, 30.17 * ANO_s, 3.8235 * DIA, 24100 * ANO_s]

/-- The five unit conversion factors of the `unidades` table (lines
106-112): seconds, minutes, hours, days, years. -/
noncomputable def unidades : List ℝ := [1.0, MINUTO, HORA, DIA, ANO_s]

/-- Parameter combinations reachable through the input widgets: the isotope
select restricts `t12` to the catalog, the `N0` number input enforces
`min_value = 1.0` (line 100), the unit select restricts `factor` to the
`unidades` table, and the slider restricts `k_semividas` to `[0.5, 10.0]`
(line 116). -/
def reachable (p : Params) : Prop :=
  p.t12 ∈ isotopos_t12 ∧ 1.0 ≤ p.N0 ∧ p.factor ∈ unidades ∧
    0.5 ≤ p.k_semividas ∧ p.k_semividas ≤ 10.0

/-- Single-point population at `t_seconds = t12`, as evaluated in the
summary panel (line 195 uses `np.exp(-lam*t12)`). -/
noncomputable def N_at_t12 (t12 N0 : ℝ) : ℝ :=
  N0 * Real.exp (-(lam t12) * t12)

/-- Single-point activity at `t_seconds = t12`, from
`lam*N0*np.exp(-lam*t12)` (line 195). -/
noncomputable def A_at_t12 (t12 N0 : ℝ) : ℝ :=
  lam t12 * N0 * Real.exp (-(lam t12) * t12)

lemma lam_pos {t12 : ℝ} (ht : 0 < t12) : 0 < lam t12 :=
  div_pos (Real.log_pos (by norm_num)) ht

lemma exp_neg_lam_t12 {t12 : ℝ} (ht : 0 < t12) :
    Real.exp (-(lam t12) * t12) = 1 / 2 := by
  rw [lam, neg_mul, div_mul_cancel₀ _ ht.ne', Real.exp_neg,
    Real.exp_log (by norm_num)]
  norm_num

/-- C1: for every valid input (`t12 > 0`, `N0 > 0`, `factor > 0`), the decay
constant `lam = ln 2 / t12` is strictly positive, each grid population is
`N0 * exp(-lam * (t_unit * factor))`, and each grid activity is
`lam * N(t)`. -/
theorem C1_pointwise_model (p : Params) (ht : 0 < p.t12) (hN : 0 < p.N0)
    (hf : 0 < p.factor) (i : ℕ) :
    0 < lam p.t12 ∧
    lam p.t12 = Real.log 2 / p.t12 ∧
    N_t p i = p.N0 * Real.exp (-(lam p.t12) * (t_u p i * p.factor)) ∧
    A_t p i = lam p.t12 * N_t p i :=
  ⟨lam_pos ht, rfl, rfl, rfl⟩

theorem C1_pointwise_model_witness :
    0 < ((⟨2, 1, 1, 1⟩ : Params)).t12 ∧
    0 < ((⟨2, 1, 1, 1⟩ : Params)).N0 ∧
    0 < ((⟨2, 1, 1, 1⟩ : Params)).factor ∧
    (0 < lam ((⟨2, 1, 1, 1⟩ : Params)).t12 ∧
     lam ((⟨2, 1, 1, 1⟩ : Params)).t12 = Real.log 2 / ((⟨2, 1, 1, 1⟩ : Params)).t12 ∧
     N_t ⟨2, 1, 1, 1⟩ 0 = ((⟨2, 1, 1, 1⟩ : Params)).N0 *
       Real.exp (-(lam ((⟨2, 1, 1, 1⟩ : Params)).t12) *
         (t_u ⟨2, 1, 1, 1⟩ 0 * ((⟨2, 1, 1, 1⟩ : Params)).factor)) ∧
     A_t ⟨2, 1, 1, 1⟩ 0 = lam ((⟨2, 1, 1, 1⟩ : Params)).t12 * N_t ⟨2, 1, 1, 1⟩ 0) :=
  ⟨by norm_num, by norm_num, by norm_num,
   C1_pointwise_model ⟨2, 1, 1, 1⟩ (by norm_num) (by norm_num) (by norm_num) 0⟩

/-- C5: the first sample of the output sequence has time offset `0`,
population `N0`, and activity `lam * N0`. -/
theorem C5_first_sample (p : Params) :
    (samples p)[0]? = some ⟨0, p.N0, lam p.t12 * p.N0⟩ := by
  have h0 : t_u p 0 = 0 := by simp [t_u]
  have hN : N_t p 0 = p.N0 := by simp [N_t, t_s, h0]
  have hA : A_t p 0 = lam p.t12 * p.N0 := by rw [A_t, hN]
  simp [samples, num_pts, h0, hN, hA]

/-- C8: the computed decay constant and the computed mean lifetime
`tau = 1 / lam` satisfy `lam * tau = 1` whenever `t12 > 0`. -/
theorem C8_lam_tau (t12 : ℝ) (ht : 0 < t12) : lam t12 * tau t12 = 1 := by
  have hl : lam t12 ≠ 0 := (lam_pos ht).ne'
  rw [tau]
  field_simp
  norm_num

theorem C8_lam_tau_witness : 0 < (2 : ℝ) ∧ lam 2 * tau 2 = 1 :=
  ⟨by norm_num, C8_lam_tau 2 (by norm_num)⟩

/-- C6: at `t_seconds = t12` the model yields exactly half the initial
population (hence within relative tolerance `1e-9`), and the activity
there is exactly `0.5 * lam * N0`. -/
theorem C6_half_life_check (t12 N0 : ℝ) (ht : 0 < t12) (hN : 0 < N0) :
    N_at_t12 t12 N0 = 0.5 * N0 ∧
    A_at_t12 t12 N0 = 0.5 * (lam t12 * N0) := by
  have he := exp_neg_lam_t12 ht
  constructor
  · rw [N_at_t12, he]; ring
  · rw [A_at_t12, he]; ring

theorem C6_half_life_check_witness :
    0 < (2 : ℝ) ∧ 0 < (3 : ℝ) ∧
    (N_at_t12 2 3 = 0.5 * 3 ∧ A_at_t12 2 3 = 0.5 * (lam 2 * 3)) :=
  ⟨by norm_num, by norm_num, C6_half_life_check 2 3 (by norm_num) (by norm_num)⟩

/-- C2: for every valid input the output has exactly `num_pts = 600`
samples; the time grid starts at `0`, ends at `Tmax_u`, equals
`k_semividas * t12 / factor` there, and has constant step
`Tmax_u / (num_pts - 1)`. -/
theorem C2_grid_shape (p : Params) (ht : 0 < p.t12) (hN : 0 < p.N0)
    (hf : 0 < p.factor) (hk : 0 < p.k_semividas) :
    (samples p).length = num_pts ∧ num_pts = 600 ∧
    Tmax_u p = p.k_semividas * p.t12 / p.factor ∧
    t_u p 0 = 0 ∧
    t_u p (num_pts - 1) = Tmax_u p ∧
    ∀ i : ℕ, t_u p (i + 1) - t_u p i = Tmax_u p / ((num_pts : ℝ) - 1) := by
  refine ⟨by simp [samples], rfl, rfl, by simp [t_u], ?_, ?_⟩
  · show ((num_pts - 1 : ℕ) : ℝ) * (Tmax_u p / ((num_pts : ℝ) - 1)) = Tmax_u p
    norm_num [num_pts]
    ring
  · intro i
    simp only [t_u]
    push_cast
    ring

theorem C2_grid_shape_witness :
    (0 : ℝ) < 1 ∧
    ((samples ⟨1, 1, 1, 1⟩).length = num_pts ∧ num_pts = 600 ∧
     Tmax_u ⟨1, 1, 1, 1⟩ = 1 * 1 / 1 ∧
     t_u ⟨1, 1, 1, 1⟩ 0 = 0 ∧
     t_u ⟨1, 1, 1, 1⟩ (num_pts - 1) = Tmax_u ⟨1, 1, 1, 1⟩ ∧
     ∀ i : ℕ, t_u ⟨1, 1, 1, 1⟩ (i + 1) - t_u ⟨1, 1, 1, 1⟩ i =
       Tmax_u ⟨1, 1, 1, 1⟩ / ((num_pts : ℝ) - 1)) :=
  ⟨by norm_num,
   C2_grid_shape ⟨1, 1, 1, 1⟩ (by norm_num) (by norm_num) (by norm_num) (by norm_num)⟩

lemma t_u_step_nonneg (p : Params) (ht : 0 < p.t12) (hf : 0 < p.factor)
    (hk : 0 < p.k_semividas) : 0 ≤ Tmax_u p / ((num_pts : ℝ) - 1) := by
  have hT : 0 ≤ Tmax_u p := by
    rw [Tmax_u, Tmax_s]
    positivity
  have h599 : (0 : ℝ) ≤ (num_pts : ℝ) - 1 := by norm_num [num_pts]
  exact div_nonneg hT h599

lemma t_u_mono (p : Params) (ht : 0 < p.t12) (hf : 0 < p.factor)
    (hk : 0 < p.k_semividas) (i : ℕ) : t_u p i ≤ t_u p (i + 1) := by
  have hstep := t_u_step_nonneg p ht hf hk
  apply mul_le_mul_of_nonneg_right _ hstep
  push_cast
  linarith

/-- C4: for every valid input, both the population sequence and the
activity sequence are monotonically non-increasing along the time grid. -/
theorem C4_monotone_nonincreasing (p : Params) (ht : 0 < p.t12)
    (hN : 0 < p.N0) (hf : 0 < p.factor) (hk : 0 < p.k_semividas) (i : ℕ) :
    N_t p (i + 1) ≤ N_t p i ∧ A_t p (i + 1) ≤ A_t p i := by
  have hlam := lam_pos ht
  have hts : t_s p i ≤ t_s p (i + 1) :=
    mul_le_mul_of_nonneg_right (t_u_mono p ht hf hk i) hf.le
  have harg : -(lam p.t12) * t_s p (i + 1) ≤ -(lam p.t12) * t_s p i :=
    mul_le_mul_of_nonpos_left hts (neg_nonpos.mpr hlam.le)
  have hNle : N_t p (i + 1) ≤ N_t p i :=
    mul_le_mul_of_nonneg_left (Real.exp_le_exp.mpr harg) hN.le
  exact ⟨hNle, mul_le_mul_of_nonneg_left hNle hlam.le⟩

theorem C4_monotone_nonincreasing_witness :
    (0 : ℝ) < 1 ∧
    (N_t ⟨1, 1, 1, 1⟩ 1 ≤ N_t ⟨1, 1, 1, 1⟩ 0 ∧
     A_t ⟨1, 1, 1, 1⟩ 1 ≤ A_t ⟨1, 1, 1, 1⟩ 0) :=
  ⟨by norm_num,
   C4_monotone_nonincreasing ⟨1, 1, 1, 1⟩ (by norm_num) (by norm_num)
     (by norm_num) (by norm_num) 0⟩

/-- C7: for every valid input, no sample of the output is negative: every
time offset is non-negative and every population and activity value is
strictly positive. -/
theorem C7_no_negative_sample (p : Params) (ht : 0 < p.t12) (hN : 0 < p.N0)
    (hf : 0 < p.factor) (hk : 0 < p.k_semividas) :
    ∀ s ∈ samples p, 0 ≤ s.t_unit ∧ 0 < s.N ∧ 0 < s.A := by
  intro s hs
  simp only [samples, List.mem_map, List.mem_range] at hs
  obtain ⟨i, _, rfl⟩ := hs
  have hlam := lam_pos ht
  have hNpos : 0 < N_t p i := mul_pos hN (Real.exp_pos _)
  refine ⟨?_, hNpos, mul_pos hlam hNpos⟩
  exact mul_nonneg (Nat.cast_nonneg i) (t_u_step_nonneg p ht hf hk)

theorem C7_no_negative_sample_witness :
    (0 : ℝ) < 1 ∧
    ∀ s ∈ samples ⟨1, 1, 1, 1⟩, 0 ≤ s.t_unit ∧ 0 < s.N ∧ 0 < s.A :=
  ⟨by norm_num,
   C7_no_negative_sample ⟨1, 1, 1, 1⟩ (by norm_num) (by norm_num)
     (by norm_num) (by norm_num)⟩

lemma t_s_unit_free (t12 N0 u k : ℝ) (hu : u ≠ 0) (i : ℕ) :
    t_s ⟨t12, N0, u, k⟩ i = (i : ℝ) * (k * t12 / ((num_pts : ℝ) - 1)) := by
  have hn : ((num_pts : ℝ) - 1) ≠ 0 := by norm_num [num_pts]
  simp only [t_s, t_u, Tmax_u, Tmax_s]
  field_simp
  ring

/-- C9: the population and activity sequences are independent of the
selected time unit: two runs differing only in the (positive) unit factor
give the same grid of seconds `i * (k * t12 / (num_pts - 1))`, hence
identical `N` and `A` values at every index. -/
theorem C9_unit_independence (t12 N0 k u1 u2 : ℝ) (ht : 0 < t12)
    (h1 : 0 < u1) (h2 : 0 < u2) (i : ℕ) :
    t_s ⟨t12, N0, u1, k⟩ i = (i : ℝ) * (k * t12 / ((num_pts : ℝ) - 1)) ∧
    N_t ⟨t12, N0, u1, k⟩ i = N_t ⟨t12, N0, u2, k⟩ i ∧
    A_t ⟨t12, N0, u1, k⟩ i = A_t ⟨t12, N0, u2, k⟩ i := by
  have e1 := t_s_unit_free t12 N0 u1 k h1.ne' i
  have e2 := t_s_unit_free t12 N0 u2 k h2.ne' i
  have hN : N_t ⟨t12, N0, u1, k⟩ i = N_t ⟨t12, N0, u2, k⟩ i := by
    simp only [N_t, e1, e2]
  exact ⟨e1, hN, by simp only [A_t, hN]⟩

theorem C9_unit_independence_witness :
    (0 : ℝ) < 1 ∧ (0 : ℝ) < 2 ∧ (0 : ℝ) < 3 ∧
    (t_s ⟨1, 1, 2, 1⟩ 0 = ((0 : ℕ) : ℝ) * (1 * 1 / ((num_pts : ℝ) - 1)) ∧
     N_t ⟨1, 1, 2, 1⟩ 0 = N_t ⟨1, 1, 3, 1⟩ 0 ∧
     A_t ⟨1, 1, 2, 1⟩ 0 = A_t ⟨1, 1, 3, 1⟩ 0) :=
  ⟨by norm_num, by norm_num, by norm_num,
   C9_unit_independence 1 1 1 2 3 (by norm_num) (by norm_num) (by norm_num) 0⟩

theorem C3_counterexample :
    (samples ⟨1, 0, 1, 1⟩).length = 600 ∧ samples ⟨1, 0, 1, 1⟩ ≠ [] := by
  constructor
  · simp [samples, num_pts]
  · simp [samples, num_pts]

/-- C3 (amended): the source performs no parameter validation and raises no
`InvalidParameter`: with `N0 = 0` and the remaining parameters in the
division-safe domain of lines 123 and 129 (`t12 > 0`, `factor > 0`), the
computation does not fail — it still produces a full 600-sample sequence
whose population values are all `0`. -/
theorem C3_no_validation_total (p : Params) (hN0 : p.N0 = 0)
    (ht : 0 < p.t12) (hf : 0 < p.factor) :
    (samples p).length = num_pts ∧ ∀ s ∈ samples p, s.N = 0 := by
  refine ⟨by simp [samples], ?_⟩
  intro s hs
  simp only [samples, List.mem_map, List.mem_range] at hs
  obtain ⟨i, _, rfl⟩ := hs
  simp [N_t, hN0]

theorem C3_no_validation_total_witness :
    ((⟨1, 0, 1, 1⟩ : Params)).N0 = 0 ∧
    0 < ((⟨1, 0, 1, 1⟩ : Params)).t12 ∧
    0 < ((⟨1, 0, 1, 1⟩ : Params)).factor ∧
    ((samples ⟨1, 0, 1, 1⟩).length = num_pts ∧
     ∀ s ∈ samples ⟨1, 0, 1, 1⟩, s.N = 0) :=
  ⟨rfl, by norm_num, by norm_num,
   C3_no_validation_total ⟨1, 0, 1, 1⟩ rfl (by norm_num) (by norm_num)⟩

/-- C10: every widget-reachable parameter combination satisfies the
positivity preconditions of the exponential core, and the fixed sample
count `600` is at least `2`. -/
theorem C10_reachable_valid (p : Params) (hp : reachable p) :
    0 < p.t12 ∧ 0 < p.N0 ∧ 0 < p.factor ∧ 0 < p.k_semividas ∧
    2 ≤ num_pts := by
  obtain ⟨hiso, hN0, hfac, hk1, hk2⟩ := hp
  refine ⟨?_, by linarith, ?_, by linarith, by norm_num [num_pts]⟩
  · simp only [isotopos_t12, List.mem_cons, List.not_mem_nil, or_false] at hiso
    rcases hiso with h | h | h | h | h | h | h | h <;>
      rw [h] <;> norm_num [ANO_s, DIA, HORA]
  · simp only [unidades, List.mem_cons, List.not_mem_nil, or_false] at hfac
    rcases hfac with h | h | h | h | h <;>
      rw [h] <;> norm_num [ANO_s, DIA, HORA, MINUTO]

theorem C10_reachable_valid_witness :
    reachable ⟨6 * HORA, 1e6, HORA, 5⟩ ∧
    (0 < (6 * HORA : ℝ) ∧ 0 < (1e6 : ℝ) ∧ 0 < HORA ∧ 0 < (5 : ℝ) ∧
     2 ≤ num_pts) :=
  ⟨⟨by simp [isotopos_t12], by norm_num, by simp [unidades], by norm_num,
     by norm_num⟩,
   C10_reachable_valid ⟨6 * HORA, 1e6, HORA, 5⟩
     ⟨by simp [isotopos_t12], by norm_num, by simp [unidades], by norm_num,
      by norm_num⟩⟩

end DecayApp
